import Mathlib

/-!
Verification development for the spanish-assistant repository.

The repository has two components:
* a React Native client (`app/(tabs)/index.tsx`): a turn-taking finite state
  machine (`reducer`), a conversation-history buffer kept in component state,
  and the controllers `startRecording` / `stopAndSend`;
* a Next.js backend (`pages/api/turn.ts`): the `handler` for the `/api/turn`
  endpoint with `parseForm` (multipart-field and history deserialization) and
  the STT → chat → TTS pipeline.

The embedding below translates those functions into Lean.  The JSON transport
layer is modelled at the level of parsed JSON values (`JValue`): the textual
encode/decode pair `JSON.stringify` / `JSON.parse` is abstracted as the
identity on `JValue`, and a `JSON.parse` failure (or an absent / empty field)
is represented by `none : Option JValue`.  External collaborators (fetch,
audio recorder and player, OpenAI endpoints) are modelled as explicit input
parameters describing their outcome; their internals are out of scope.
-/

namespace SpanishAssistant

/-- The five client states of the turn state machine (`type State` in
`index.tsx`). -/
inductive TurnState where
  | idle
  | listening
  | uploading
  | speaking
  | error
deriving DecidableEq, Repr

/-- The seven events of the turn state machine (`type Event` in `index.tsx`). -/
inductive TurnEvent where
  | press_down
  | press_up
  | upload_start
  | upload_ok
  | upload_err
  | play_end
  | cancel
deriving DecidableEq, Repr

/-- The client transition function, translated clause by clause from the
`reducer` switch in `index.tsx` (each `case` returns the listed next state for
its listed events and `state` otherwise). -/
def reducer (state : TurnState) (ev : TurnEvent) : TurnState :=
  match state with
  | .idle => if ev = .press_down then .listening else state
  | .listening =>
      if ev = .press_up then .uploading
      else if ev = .cancel then .idle
      else state
  | .uploading =>
      if ev = .upload_ok then .speaking
      else if ev = .upload_err then .error
      else state
  | .speaking => if ev = .play_end then .idle else state
  | .error => if ev = .cancel then .idle else state

/-- The transition table of spec section 4.1, written from the spec's words:
`some` for the seven listed rows, `none` for every unlisted pair. -/
def specTable (s : TurnState) (e : TurnEvent) : Option TurnState :=
  match s, e with
  | .idle, .press_down => some .listening
  | .listening, .press_up => some .uploading
  | .listening, .cancel => some .idle
  | .uploading, .upload_ok => some .speaking
  | .uploading, .upload_err => some .error
  | .speaking, .play_end => some .idle
  | .error, .cancel => some .idle
  | _, _ => none

/-- Spec section 4.1 as a total function: the table entry where one is listed,
the unchanged state otherwise. -/
def specNext (s : TurnState) (e : TurnEvent) : TurnState :=
  (specTable s e).getD s

/-- The visited-state trace of a dispatched event sequence, starting from a
given state (each `dispatch` call routes through `reducer`). -/
def stateTrace (s : TurnState) (evs : List TurnEvent) : List TurnState :=
  List.scanl reducer s evs

/-- Message role, restricted to the two values accepted by the system
(`"user" | "assistant"` in both `Msg` of `turn.ts` and `ChatMsg` of
`index.tsx`). -/
inductive Role where
  | user
  | assistant
deriving DecidableEq, Repr

/-- A conversation entry (`Msg` in `turn.ts`, `ChatMsg` in `index.tsx`). -/
structure Msg where
  role : Role
  content : String
deriving DecidableEq, Repr

/-- The JSON string used for each role on the wire. -/
def roleString : Role → String
  | .user => "user"
  | .assistant => "assistant"

/-- Parsed JSON values: the result type of `JSON.parse`. -/
inductive JValue where
  | jnull
  | jbool (b : Bool)
  | jnum (n : Int)
  | jstr (s : String)
  | jarr (xs : List JValue)
  | jobj (fields : List (String × JValue))
deriving Repr

/-- Property lookup on a parsed JSON object (`o.role`, `o.content`). -/
def jlookup (fields : List (String × JValue)) (key : String) : Option JValue :=
  (fields.find? (fun p => p.1 = key)).map Prod.snd

/-- The entry validation of `parseForm` (`turn.ts` lines 52–56): an entry is
kept exactly when it is an object whose `role` property is the string
`"user"` or `"assistant"` and whose `content` property is a string; any other
JSON value (null, scalar, array, object with missing or mistyped fields, or
an unknown role) is discarded. -/
def entryToMsg : JValue → Option Msg
  | .jobj fields =>
      match jlookup fields "role", jlookup fields "content" with
      | some (.jstr r), some (.jstr c) =>
          if r = "user" then some ⟨.user, c⟩
          else if r = "assistant" then some ⟨.assistant, c⟩
          else none
      | _, _ => none
  | _ => none

/-- The last `n` elements of a list, in order (JS `Array.prototype.slice(-n)`
for `n > 0`: the whole array when it is shorter than `n`). -/
def lastN (n : Nat) (xs : List α) : List α :=
  xs.drop (xs.length - n)

/-- The history produced from the parsed value of the `history` form field
(`turn.ts` lines 46–61 before the cap): `none` stands for a missing field, an
empty raw string, or a `JSON.parse` failure, all of which leave `history`
empty; a parsed non-array also leaves it empty; a parsed array is filtered by
the entry validation. -/
def parseHistoryValue : Option JValue → List Msg
  | some (.jarr xs) => xs.filterMap entryToMsg
  | _ => []

/-- The complete history computation of `parseForm` (`turn.ts` lines 46–62):
the validated entries, then `if (history.length > 12) history =
history.slice(-12)`. -/
def parseFormHistory (raw : Option JValue) : List Msg :=
  let h := parseHistoryValue raw
  if h.length > 12 then lastN 12 h else h

/-- JSON serialization of one client history entry: `JSON.stringify` writes
the `role` and `content` properties of a `ChatMsg` object literal. -/
def serializeMsg (m : Msg) : JValue :=
  .jobj [("role", .jstr (roleString m.role)), ("content", .jstr m.content)]

/-- The value the client puts in the `history` form field (`index.tsx` line
241): `JSON.stringify(history.slice(-6))`. -/
def clientHistoryField (h : List Msg) : JValue :=
  .jarr ((lastN 6 h).map serializeMsg)

/-- Serialize on the client, transport, and deserialize on the server: the
round trip the `history` field actually takes. -/
def historyRoundTrip (h : List Msg) : List Msg :=
  parseFormHistory (some (clientHistoryField h))

/-- The client history update of a successful turn (`index.tsx` lines
258–265): push the user transcript and the assistant reply, then `next.length
> 12 ? next.slice(-12) : next`. -/
def appendTurn (prev : List Msg) (transcript replyText : String) : List Msg :=
  let next := prev ++ [⟨.user, transcript⟩, ⟨.assistant, replyText⟩]
  if next.length > 12 then lastN 12 next else next

/-- A whole session of turn appends, starting from the empty history. -/
def appendTurns (turns : List (String × String)) : List Msg :=
  turns.foldl (fun h p => appendTurn h p.1 p.2) []

/-- The observable component state of the client controller: the machine
state held by `useReducer`, and the `errorMsg` / `history` /
`recordingRef` / `soundRef` / `isReplayDisabled` cells of `Home`. -/
structure ClientState where
  turn : TurnState
  errorMsg : Option String
  history : List Msg
  recorder : Bool
  sound : Bool
  replayDisabled : Bool
deriving DecidableEq, Repr

/-- Outcome of the `fetch` call in `stopAndSend`: either the promise rejects
(network error carrying a message), or a response arrives with its `ok` flag,
status, body text, and the three optional fields of the parsed JSON body. -/
inductive FetchOutcome where
  | netError (msg : String)
  | resp (ok : Bool) (status : Nat) (bodyText : String)
      (audioBase64 transcript replyText : Option String)
deriving DecidableEq, Repr

/-- `true` exactly on the outcomes the claims call a failed remote call: the
promise rejected, the response status was not ok, or the parsed body has no
usable audio payload (absent, or the empty string, which is falsy in
`if (!audioBase64)`). -/
def fetchFailed : FetchOutcome → Bool
  | .netError _ => true
  | .resp ok _ _ audio _ _ => !ok || audio = none || audio = some ""

/-- The environment of one `stopAndSend` run: the URI reported by the stopped
recorder, the fetch outcome, and whether `Audio.Sound.createAsync` succeeds. -/
structure StopInput where
  uri : Option String
  fetch : FetchOutcome
  soundCreateOk : Bool
deriving DecidableEq, Repr

/-- What one `stopAndSend` run did: the final component state, the events
dispatched in order, whether `fetch` was reached, and the serialized history
window sent with the request when it was. -/
structure StopTrace where
  final : ClientState
  events : List TurnEvent
  networkCalled : Bool
  sentHistory : Option JValue
deriving Repr

/-- The message thrown for a non-ok response (`index.tsx` line 247). -/
def backendFailMsg (status : Nat) (bodyText : String) : String :=
  "Backend " ++ toString status ++ ": " ++ bodyText

/-- The `stopAndSend` controller (`index.tsx` lines 220–293), with each
`dispatch` applied through `reducer` and recorded.  Control flow mirrors the
source: early return when no recorder is held; stop and clear the recorder
(the stop itself is assumed not to throw); dispatch `PRESS_UP`; throw on a
missing URI; clear `errorMsg` and dispatch `UPLOAD_START`; `fetch`; throw on
a non-ok response or a missing/empty `audioBase64`; append the two history
entries when `transcript != null` (with `replyText ?? ""`); replace the
playback handle; dispatch `UPLOAD_OK` and enable replay.  Every throw lands
in the catch block, which sets `errorMsg` and dispatches `UPLOAD_ERR`. -/
def stopAndSend (s : ClientState) (inp : StopInput) : StopTrace :=
  if !s.recorder then ⟨s, [], false, none⟩
  else
    let s1 : ClientState := { s with recorder := false, turn := reducer s.turn .press_up }
    match inp.uri with
    | none =>
        ⟨{ s1 with errorMsg := some "No recording URI",
                   turn := reducer s1.turn .upload_err },
         [.press_up, .upload_err], false, none⟩
    | some _ =>
        let sent := clientHistoryField s1.history
        let s2 : ClientState := { s1 with errorMsg := none,
                                          turn := reducer s1.turn .upload_start }
        match inp.fetch with
        | .netError m =>
            ⟨{ s2 with errorMsg := some m, turn := reducer s2.turn .upload_err },
             [.press_up, .upload_start, .upload_err], true, some sent⟩
        | .resp ok status bodyText audio transcript replyText =>
            if !ok then
              ⟨{ s2 with errorMsg := some (backendFailMsg status bodyText),
                         turn := reducer s2.turn .upload_err },
               [.press_up, .upload_start, .upload_err], true, some sent⟩
            else
              match audio with
              | none =>
                  ⟨{ s2 with errorMsg := some "No audioBase64 in response",
                             turn := reducer s2.turn .upload_err },
                   [.press_up, .upload_start, .upload_err], true, some sent⟩
              | some a =>
                  if a = "" then
                    ⟨{ s2 with errorMsg := some "No audioBase64 in response",
                               turn := reducer s2.turn .upload_err },
                     [.press_up, .upload_start, .upload_err], true, some sent⟩
                  else
                    let s3 : ClientState :=
                      match transcript with
                      | some t =>
                          { s2 with history := appendTurn s2.history t (replyText.getD "") }
                      | none => s2
                    if inp.soundCreateOk then
                      ⟨{ s3 with sound := true,
                                 turn := reducer s3.turn .upload_ok,
                                 replayDisabled := false },
                       [.press_up, .upload_start, .upload_ok], true, some sent⟩
                    else
                      ⟨{ s3 with sound := false,
                                 errorMsg := some "Upload/play error",
                                 turn := reducer s3.turn .upload_err },
                       [.press_up, .upload_start, .upload_err], true, some sent⟩

/-- The `startRecording` controller (`index.tsx` lines 207–218): dispatch
`PRESS_DOWN`, then acquire and start the recorder; on an acquisition failure
(`acquire = none` means success, `some m` carries the exception message, with
`"Failed to start recording"` substituted for a message-less exception) set
`errorMsg` and dispatch `CANCEL`. -/
def startRecording (s : ClientState) (acquire : Option (Option String)) :
    ClientState × List TurnEvent :=
  let s1 : ClientState := { s with turn := reducer s.turn .press_down }
  match acquire with
  | none => ({ s1 with recorder := true }, [.press_down])
  | some m =>
      ({ s1 with errorMsg := some (m.getD "Failed to start recording"),
                 turn := reducer s1.turn .cancel },
       [.press_down, .cancel])

/-- Roles of the chat-completion request (`system` plus the two history
roles). -/
inductive ChatRole where
  | system
  | user
  | assistant
deriving DecidableEq, Repr

/-- One message of the chat-completion request built by the backend. -/
structure ChatMessage where
  role : ChatRole
  content : String
deriving DecidableEq, Repr

/-- The history roles embed into the chat-request roles unchanged. -/
def toChatRole : Role → ChatRole
  | .user => .user
  | .assistant => .assistant

/-- The fixed instruction preamble (`SYSTEM_PROMPT` in `turn.ts`). -/
def SYSTEM_PROMPT : String :=
  "\nYou are a warm Spanish conversation partner and coach.\nAlways reply in Spanish. Keep responses to 1–4 sentences.\nWhen there’s a clear mistake, first write “Corrección:” with a short fix,\nthen give a natural reply. Ask a brief follow-up question each turn.\nUse Latin American Spanish consistently. Use informal \"tú\" form.\nUse simple vocabulary and grammar suitable for a beginner/intermediate learner.\n"

/-- The transcription text used by the backend: `stt.text ?? ""`
(`turn.ts` line 88). -/
def userTextOf (sttText : Option String) : String :=
  sttText.getD ""

/-- The message list of the chat request (`turn.ts` lines 91–98): the system
prompt, the deserialized history in order with roles preserved, then the
current user text. -/
def buildMessages (history : List Msg) (userText : String) : List ChatMessage :=
  ⟨.system, SYSTEM_PROMPT⟩ ::
    (history.map (fun m => ⟨toChatRole m.role, m.content⟩) ++ [⟨.user, userText⟩])

/-- The reply text used by the backend:
`chat.choices[0]?.message?.content ?? "¿Puedes repetir, por favor?"`
(`turn.ts` lines 106–107). -/
def replyOf (chatContent : Option String) : String :=
  chatContent.getD "¿Puedes repetir, por favor?"

/-- Request methods as the handler distinguishes them. -/
inductive HttpMethod where
  | get
  | post
  | other (name : String)
deriving DecidableEq, Repr

/-- Outcomes of the three external collaborators on the POST path. -/
structure BackendDeps where
  sttText : Option String
  chatContent : Option String
  ttsAudioB64 : String
deriving DecidableEq, Repr

/-- What one `handler` run produced: the response status, the `Allow` header
if one was set, the JSON body, how many external collaborators were invoked,
and whether the request body was parsed. -/
structure HandlerResult where
  status : Nat
  allow : Option String
  body : JValue
  externalCalls : Nat
  parsedBody : Bool
  chatMessages : Option (List ChatMessage)
deriving Repr

/-- The turn endpoint `handler` (`turn.ts` lines 68–132).  A GET request
returns 200 with `{ok: true, route: "turn"}` at once; any method other than
GET or POST returns 405 with an `Allow: POST` header; both happen before
`parseForm` and before any collaborator call.  A POST request parses the
form (`formErr = some msg` models a `parseForm` rejection, answered 500),
then runs STT, chat and TTS in sequence and answers 200 with the turn
payload. -/
def handler (m : HttpMethod) (formErr : Option String) (history : List Msg)
    (deps : BackendDeps) : HandlerResult :=
  match m with
  | .get =>
      ⟨200, none, .jobj [("ok", .jbool true), ("route", .jstr "turn")], 0, false, none⟩
  | .other _ =>
      ⟨405, some "POST", .jobj [("error", .jstr "Method Not Allowed")], 0, false, none⟩
  | .post =>
      match formErr with
      | some msg => ⟨500, none, .jobj [("error", .jstr msg)], 0, true, none⟩
      | none =>
          let userText := userTextOf deps.sttText
          let reply := replyOf deps.chatContent
          ⟨200, none,
           .jobj [("audioBase64", .jstr deps.ttsAudioB64),
                  ("transcript", .jstr userText),
                  ("replyText", .jstr reply)], 3, true,
           some (buildMessages history userText)⟩

/-! Concrete sample inputs used to instantiate the theorems below. -/

/-- A client in `listening` holding a live recorder, mid-conversation. -/
def listeningState : ClientState :=
  ⟨.listening, none, [⟨.user, "hola"⟩, ⟨.assistant, "buenas"⟩], true, false, true⟩

/-- A `stopAndSend` environment in which the stopped recorder reports no URI. -/
def noUriInput : StopInput :=
  ⟨none, .netError "unreachable", true⟩

/-- A `stopAndSend` environment in which the fetch promise rejects. -/
def netErrInput : StopInput :=
  ⟨some "file:rec.m4a", .netError "Network request failed", true⟩

/-- A `stopAndSend` environment with a fully successful backend response. -/
def okInput : StopInput :=
  ⟨some "file:rec.m4a",
   .resp true 200 "" (some "QUJD") (some "Hola") (some "bien"), true⟩

/-- A valid history entry as the wire carries it. -/
def mkUserEntry (c : String) : JValue :=
  .jobj [("role", .jstr "user"), ("content", .jstr c)]

/-- A history payload holding 13 valid entries and one invalid one. -/
def overfullHistoryArray : List JValue :=
  List.replicate 13 (mkUserEntry "x") ++ [JValue.jnull]

/-- A valid 7-entry history. -/
def sevenMsgs : List Msg :=
  List.replicate 7 ⟨.user, "x"⟩

/-- A valid 12-entry history, exactly at the cap. -/
def twelveMsgs : List Msg :=
  List.replicate 12 ⟨.user, "m"⟩

/-- A short valid history. -/
def sampleHistory : List Msg :=
  [⟨.user, "hola"⟩, ⟨.assistant, "buenas"⟩, ⟨.user, "adiós"⟩]

/-- A short session of turns. -/
def demoTurns : List (String × String) :=
  [("hola", "buenas"), ("bien", "genial")]

/-- A mixed history payload: valid entries around an invalid one. -/
def mixedHistoryArray : List JValue :=
  [mkUserEntry "a", JValue.jnum 3,
   .jobj [("role", .jstr "assistant"), ("content", .jstr "b")]]

/-- Sample collaborator outcomes for the backend pipeline. -/
def sampleDeps : BackendDeps :=
  ⟨some "Hola", some "bien", "QUJD"⟩

/-! Helper lemmas shared by the claim theorems. -/

theorem entryToMsg_serializeMsg (m : Msg) : entryToMsg (serializeMsg m) = some m := by
  cases m with
  | mk r c => cases r <;> rfl

theorem filterMap_entryToMsg_serialize (h : List Msg) :
    (h.map serializeMsg).filterMap entryToMsg = h := by
  rw [List.filterMap_map]
  have hcomp : (entryToMsg ∘ serializeMsg) = some := by
    funext m
    exact entryToMsg_serializeMsg m
  rw [hcomp, List.filterMap_some]

theorem lastN_of_le {α : Type} {n : Nat} {xs : List α} (h : xs.length ≤ n) :
    lastN n xs = xs := by
  simp [lastN, Nat.sub_eq_zero_of_le h]

theorem length_lastN {α : Type} (n : Nat) (xs : List α) :
    (lastN n xs).length = min n xs.length := by
  simp only [lastN, List.length_drop]
  omega

theorem appendTurn_length_le (prev : List Msg) (t r : String) :
    (appendTurn prev t r).length ≤ 12 := by
  unfold appendTurn
  by_cases h : (prev ++ [(⟨.user, t⟩ : Msg), ⟨.assistant, r⟩]).length > 12
  · simp only [h, if_true, length_lastN]
    omega
  · simp only [h, if_false]
    omega

theorem appendTurns_length_le (turns : List (String × String)) :
    (appendTurns turns).length ≤ 12 := by
  have key : ∀ (ts : List (String × String)) (acc : List Msg), acc.length ≤ 12 →
      (ts.foldl (fun h p => appendTurn h p.1 p.2) acc).length ≤ 12 := by
    intro ts
    induction ts with
    | nil => intro acc h; simpa using h
    | cons p ps ih =>
        intro acc _
        simpa using ih _ (appendTurn_length_le acc p.1 p.2)
  simpa [appendTurns] using key turns [] (by simp)

theorem appendTurn_at_cap (prev : List Msg) (t r : String) (h : prev.length = 12) :
    appendTurn prev t r = prev.drop 2 ++ [⟨.user, t⟩, ⟨.assistant, r⟩] := by
  have h14 : (prev ++ [(⟨.user, t⟩ : Msg), ⟨.assistant, r⟩]).length > 12 := by
    simp [h]
  unfold appendTurn
  rw [if_pos h14]
  unfold lastN
  rw [List.length_append, h]
  norm_num
  exact List.drop_append_of_le_length (by omega)

theorem parseFormHistory_arr (xs : List JValue) :
    parseFormHistory (some (.jarr xs)) = lastN 12 (xs.filterMap entryToMsg) := by
  unfold parseFormHistory parseHistoryValue
  by_cases h : (xs.filterMap entryToMsg).length > 12
  · simp [h]
  · simp only [h, if_false]
    rw [lastN_of_le (by omega)]

theorem appendTurn_eq_lastN (prev : List Msg) (t r : String) :
    appendTurn prev t r = lastN 12 (prev ++ [⟨.user, t⟩, ⟨.assistant, r⟩]) := by
  unfold appendTurn
  by_cases h : (prev ++ [(⟨.user, t⟩ : Msg), ⟨.assistant, r⟩]).length > 12
  · rw [if_pos h]
  · rw [if_neg h, lastN_of_le (by omega)]

theorem stopAndSend_failed (s : ClientState) (inp : StopInput) (u : String)
    (hrec : s.recorder = true) (hturn : s.turn = TurnState.listening)
    (huri : inp.uri = some u) (hfail : fetchFailed inp.fetch = true) :
    (stopAndSend s inp).final.turn = TurnState.error ∧
    (stopAndSend s inp).final.history = s.history := by
  cases hf : inp.fetch with
  | netError m =>
      simp [stopAndSend, hrec, hturn, huri, hf, reducer]
  | resp ok status bodyText audio transcript replyText =>
      rw [hf] at hfail
      cases ok with
      | false => simp [stopAndSend, hrec, hturn, huri, hf, reducer]
      | true =>
          simp only [fetchFailed, Bool.not_true, Bool.false_or] at hfail
          have haud : audio = none ∨ audio = some "" := by
            rcases audio with _ | a
            · exact Or.inl rfl
            · right
              simpa using hfail
          rcases haud with h | h <;> subst h <;>
            simp [stopAndSend, hrec, hturn, huri, hf, reducer]

/-! Claim theorems. -/

/-- C1: the reducer is a total deterministic function that agrees with the
spec 4.1 transition table on every (state, event) pair, returning the table's
next state on the seven listed rows and the unchanged state on every unlisted
pair; in particular a `play_end` in any state other than `speaking` leaves
the state unchanged. -/
theorem claim_C1_reducer_matches_table :
    (∀ s e, reducer s e = specNext s e) ∧
    (∀ s, s ≠ TurnState.speaking → reducer s .play_end = s) := by
  constructor
  · intro s e
    cases s <;> cases e <;> rfl
  · intro s hs
    cases s <;> first | rfl | exact absurd rfl hs

/-- C1 witness: the theorem instantiated at (idle, press_down) and, for the
hypothesis-bearing half, at the non-speaking state `error`. -/
theorem claim_C1_reducer_matches_table_witness :
    reducer .idle .press_down = specNext .idle .press_down ∧
    (TurnState.error ≠ TurnState.speaking ∧ reducer .error .play_end = .error) :=
  ⟨claim_C1_reducer_matches_table.1 .idle .press_down,
   by decide,
   claim_C1_reducer_matches_table.2 .error (by decide)⟩

/-- C3: a session of turn appends never drives the history length above the
cap of 12; one turn append always lands at or under the cap; and appending 2
entries to a buffer already holding 12 yields 12 entries, evicting the 2
oldest and keeping the survivors in their original order ahead of the 2 new
entries. -/
theorem claim_C3_history_cap (turns : List (String × String)) (prev : List Msg)
    (t r : String) (hcap : prev.length = 12) :
    (appendTurns turns).length ≤ 12 ∧
    (appendTurn prev t r).length ≤ 12 ∧
    appendTurn prev t r = prev.drop 2 ++ [⟨.user, t⟩, ⟨.assistant, r⟩] :=
  ⟨appendTurns_length_le turns, appendTurn_length_le prev t r,
   appendTurn_at_cap prev t r hcap⟩

/-- C3 witness: the theorem instantiated at a concrete session and a concrete
12-entry buffer. -/
theorem claim_C3_history_cap_witness :
    twelveMsgs.length = 12 ∧
    ((appendTurns demoTurns).length ≤ 12 ∧
     (appendTurn twelveMsgs "Hola" "bien").length ≤ 12 ∧
     appendTurn twelveMsgs "Hola" "bien" =
       twelveMsgs.drop 2 ++ [⟨.user, "Hola"⟩, ⟨.assistant, "bien"⟩]) :=
  ⟨by decide, claim_C3_history_cap demoTurns twelveMsgs "Hola" "bien" (by decide)⟩

/-- C5 counterexample: deserializing a valid array holding 13 valid entries
and one invalid entry does not yield exactly the valid entries — the cap in
`parseForm` (`turn.ts` line 62) also drops the oldest valid entry. -/
theorem claim_C5_counterexample :
    parseFormHistory (some (.jarr overfullHistoryArray)) ≠
      overfullHistoryArray.filterMap entryToMsg := by
  decide

/-- C5 (amended): deserializing a non-array or otherwise malformed payload
yields an empty history; deserializing a valid array yields exactly the valid
entries in original order with invalid entries discarded, further truncated
to the most recent 12 valid entries when more than 12 remain. -/
theorem claim_C5_amended_deserialize (xs : List JValue) (j : Option JValue)
    (hj : ∀ ys, j ≠ some (.jarr ys)) :
    parseFormHistory (some (.jarr xs)) = lastN 12 (xs.filterMap entryToMsg) ∧
    parseFormHistory j = [] := by
  refine ⟨parseFormHistory_arr xs, ?_⟩
  match j with
  | none => rfl
  | some .jnull => rfl
  | some (.jbool b) => rfl
  | some (.jnum n) => rfl
  | some (.jstr s) => rfl
  | some (.jobj fields) => rfl
  | some (.jarr ys) => exact absurd rfl (hj ys)

/-- C5 witness: the amended theorem instantiated at a concrete mixed array
and a concrete malformed (non-array) payload. -/
theorem claim_C5_amended_deserialize_witness :
    (∀ ys, some (JValue.jstr "oops") ≠ some (.jarr ys)) ∧
    (parseFormHistory (some (.jarr mixedHistoryArray)) =
        lastN 12 (mixedHistoryArray.filterMap entryToMsg) ∧
     parseFormHistory (some (JValue.jstr "oops")) = []) :=
  ⟨fun ys h => by simp at h,
   claim_C5_amended_deserialize mixedHistoryArray (some (JValue.jstr "oops"))
     (fun ys h => by simp at h)⟩

/-- C6 counterexample: the serialize-then-deserialize round trip is not the
identity on a valid 7-entry history — the client serializes only the last 6
entries (`index.tsx` line 241). -/
theorem claim_C6_counterexample :
    historyRoundTrip sevenMsgs ≠ sevenMsgs := by
  decide

/-- C6 (amended): the serialize-then-deserialize round trip yields the last
6 entries of the history (the client serializes `history.slice(-6)`, the
server's validation and cap then pass them through unchanged); in particular
the round trip is the identity for every history of valid entries holding at
most 6 of them. -/
theorem claim_C6_amended_roundtrip (h : List Msg) :
    historyRoundTrip h = lastN 6 h ∧
    (h.length ≤ 6 → historyRoundTrip h = h) := by
  have hgen : historyRoundTrip h = lastN 6 h := by
    unfold historyRoundTrip clientHistoryField
    rw [parseFormHistory_arr, filterMap_entryToMsg_serialize,
      lastN_of_le (by rw [length_lastN]; omega)]
  exact ⟨hgen, fun hlen => hgen.trans (lastN_of_le hlen)⟩

/-- C6 witness: the amended theorem instantiated at a concrete 7-entry
history for the last-6 clause and at a concrete 3-entry history for the
identity clause. -/
theorem claim_C6_amended_roundtrip_witness :
    sampleHistory.length ≤ 6 ∧
    historyRoundTrip sevenMsgs = lastN 6 sevenMsgs ∧
    historyRoundTrip sampleHistory = sampleHistory :=
  ⟨by decide, (claim_C6_amended_roundtrip sevenMsgs).1,
   (claim_C6_amended_roundtrip sampleHistory).2 (by decide)⟩

/-- C2 counterexample: handling `press_up` in `listening` with a recorder
whose stop reports no URI, the machine does enter `uploading` — `stopAndSend`
dispatches `PRESS_UP` before the URI check, so `uploading` appears in the
visited-state trace. -/
theorem claim_C2_counterexample :
    TurnState.uploading ∈
      stateTrace listeningState.turn (stopAndSend listeningState noUriInput).events := by
  decide

/-- C2 (amended): when the controller handles `press_up` and no valid
recording URI exists after stopping the recorder, the turn is aborted before
any network call, the error message is surfaced, and the history is
unchanged; the machine transitions through `uploading` (the `PRESS_UP`
dispatch precedes the URI check) and settles in `error` rather than remaining
in `uploading`. -/
theorem claim_C2_amended_no_uri (s : ClientState) (inp : StopInput)
    (hrec : s.recorder = true) (hturn : s.turn = TurnState.listening)
    (huri : inp.uri = none) :
    (stopAndSend s inp).networkCalled = false ∧
    (stopAndSend s inp).final.errorMsg = some "No recording URI" ∧
    (stopAndSend s inp).final.history = s.history ∧
    (stopAndSend s inp).final.turn = TurnState.error ∧
    (stopAndSend s inp).events = [.press_up, .upload_err] := by
  simp [stopAndSend, hrec, hturn, huri, reducer]

/-- C2 witness: the amended theorem instantiated at a concrete listening
state and a URI-less stop. -/
theorem claim_C2_amended_no_uri_witness :
    listeningState.recorder = true ∧ listeningState.turn = TurnState.listening ∧
    noUriInput.uri = none ∧
    ((stopAndSend listeningState noUriInput).networkCalled = false ∧
     (stopAndSend listeningState noUriInput).final.errorMsg = some "No recording URI" ∧
     (stopAndSend listeningState noUriInput).final.history = listeningState.history ∧
     (stopAndSend listeningState noUriInput).final.turn = TurnState.error ∧
     (stopAndSend listeningState noUriInput).events = [.press_up, .upload_err]) :=
  ⟨rfl, rfl, rfl, claim_C2_amended_no_uri listeningState noUriInput rfl rfl rfl⟩

/-- C4: while a turn is in flight from `listening` (the machine is in
`uploading` when the response lands), a successful collaborator response —
ok status with audio payload, transcript and reply text — makes the
controller append exactly the two entries, user transcript first and
assistant reply second, at the end of the history (through the capped
`appendTurn`); and a turn whose remote call fails appends nothing. -/
theorem claim_C4_success_appends_two :
    (∀ (s : ClientState) (inp : StopInput) (u : String) (status : Nat)
        (bodyText a t r : String), s.recorder = true → s.turn = TurnState.listening →
      inp.uri = some u →
      inp.fetch = .resp true status bodyText (some a) (some t) (some r) →
      a ≠ "" →
      (stopAndSend s inp).final.history = appendTurn s.history t r ∧
      (stopAndSend s inp).final.history =
        lastN 12 (s.history ++ [⟨.user, t⟩, ⟨.assistant, r⟩])) ∧
    (∀ (s : ClientState) (inp : StopInput) (u : String), s.recorder = true →
      s.turn = TurnState.listening → inp.uri = some u →
      fetchFailed inp.fetch = true →
      (stopAndSend s inp).final.history = s.history) := by
  constructor
  · intro s inp u status bodyText a t r hrec hturn huri hresp ha
    have hbase : (stopAndSend s inp).final.history = appendTurn s.history t r := by
      cases hsc : inp.soundCreateOk <;>
        simp [stopAndSend, hrec, hturn, huri, hresp, ha, hsc, reducer]
    exact ⟨hbase, hbase.trans (appendTurn_eq_lastN s.history t r)⟩
  · intro s inp u hrec hturn huri hfail
    exact (stopAndSend_failed s inp u hrec hturn huri hfail).2

/-- C4 witness: the theorem instantiated at a concrete successful turn and a
concrete network-failed turn. -/
theorem claim_C4_success_appends_two_witness :
    (listeningState.recorder = true ∧ listeningState.turn = TurnState.listening ∧
     okInput.uri = some "file:rec.m4a" ∧
     okInput.fetch = .resp true 200 "" (some "QUJD") (some "Hola") (some "bien") ∧
     "QUJD" ≠ "" ∧
     ((stopAndSend listeningState okInput).final.history =
        appendTurn listeningState.history "Hola" "bien" ∧
      (stopAndSend listeningState okInput).final.history =
        lastN 12 (listeningState.history ++ [⟨.user, "Hola"⟩, ⟨.assistant, "bien"⟩]))) ∧
    (netErrInput.uri = some "file:rec.m4a" ∧ fetchFailed netErrInput.fetch = true ∧
     (stopAndSend listeningState netErrInput).final.history = listeningState.history) :=
  ⟨⟨rfl, rfl, rfl, rfl, by decide,
    claim_C4_success_appends_two.1 listeningState okInput "file:rec.m4a" 200 "" "QUJD"
      "Hola" "bien" rfl rfl rfl rfl (by decide)⟩,
   rfl, rfl,
   claim_C4_success_appends_two.2 listeningState netErrInput "file:rec.m4a" rfl rfl rfl rfl⟩

/-- C7: when the remote call of a turn fails — the fetch promise rejects, the
response status is not ok, or the response carries no usable audio payload —
the machine transitions to `error`, the failed turn leaves the history
unchanged, and a subsequent `cancel` takes the machine from `error` back to
`idle`. -/
theorem claim_C7_remote_failure (s : ClientState) (inp : StopInput) (u : String)
    (hrec : s.recorder = true) (hturn : s.turn = TurnState.listening)
    (huri : inp.uri = some u) (hfail : fetchFailed inp.fetch = true) :
    (stopAndSend s inp).final.turn = TurnState.error ∧
    (stopAndSend s inp).final.history = s.history ∧
    reducer (stopAndSend s inp).final.turn .cancel = TurnState.idle := by
  have h := stopAndSend_failed s inp u hrec hturn huri hfail
  refine ⟨h.1, h.2, ?_⟩
  rw [h.1]
  rfl

/-- C7 witness: the theorem instantiated at a concrete listening state whose
fetch rejects with a network error. -/
theorem claim_C7_remote_failure_witness :
    listeningState.recorder = true ∧ listeningState.turn = TurnState.listening ∧
    netErrInput.uri = some "file:rec.m4a" ∧ fetchFailed netErrInput.fetch = true ∧
    ((stopAndSend listeningState netErrInput).final.turn = TurnState.error ∧
     (stopAndSend listeningState netErrInput).final.history = listeningState.history ∧
     reducer (stopAndSend listeningState netErrInput).final.turn .cancel =
       TurnState.idle) :=
  ⟨rfl, rfl, rfl, rfl,
   claim_C7_remote_failure listeningState netErrInput "file:rec.m4a" rfl rfl rfl rfl⟩

/-- C8: when recorder acquisition fails during `press_down` handling, the
controller synthesizes a `cancel` (its dispatched events are `PRESS_DOWN`
then `CANCEL`), returning the machine from `listening` to `idle` with an
error message surfaced; on a successful acquisition the machine is in
`listening` with a live recorder — so it is never left in `listening`
without one. -/
theorem claim_C8_acquisition_failure (s : ClientState) (m : Option String)
    (hturn : s.turn = TurnState.idle) :
    (startRecording s (some m)).1.turn = TurnState.idle ∧
    (startRecording s (some m)).1.errorMsg.isSome = true ∧
    (startRecording s (some m)).2 = [.press_down, .cancel] ∧
    (startRecording s none).1.turn = TurnState.listening ∧
    (startRecording s none).1.recorder = true := by
  simp [startRecording, hturn, reducer]

/-- C8 witness: the theorem instantiated at a concrete idle state and a
message-less acquisition exception. -/
theorem claim_C8_acquisition_failure_witness :
    (⟨TurnState.idle, none, [], false, false, true⟩ : ClientState).turn =
      TurnState.idle ∧
    ((startRecording ⟨TurnState.idle, none, [], false, false, true⟩ (some none)).1.turn =
        TurnState.idle ∧
     (startRecording ⟨TurnState.idle, none, [], false, false, true⟩
        (some none)).1.errorMsg.isSome = true ∧
     (startRecording ⟨TurnState.idle, none, [], false, false, true⟩ (some none)).2 =
        [.press_down, .cancel] ∧
     (startRecording ⟨TurnState.idle, none, [], false, false, true⟩ none).1.turn =
        TurnState.listening ∧
     (startRecording ⟨TurnState.idle, none, [], false, false, true⟩ none).1.recorder =
        true) :=
  ⟨rfl, claim_C8_acquisition_failure ⟨TurnState.idle, none, [], false, false, true⟩
    none rfl⟩

/-- C9: the backend builds the chat request as exactly the fixed system
prompt, then the deserialized history entries in order with roles preserved,
then one final user message carrying the transcription text (the empty
string when the transcriber returns no text); and a chat completion without
content falls back to the fixed reply string. -/
theorem claim_C9_chat_request (history : List Msg) (stt : Option String)
    (deps : BackendDeps) (i : Nat) (hi : i < history.length) :
    (buildMessages history (userTextOf stt)).length = history.length + 2 ∧
    (buildMessages history (userTextOf stt)).head? =
      some ⟨.system, SYSTEM_PROMPT⟩ ∧
    (buildMessages history (userTextOf stt)).getLast? =
      some ⟨.user, userTextOf stt⟩ ∧
    (buildMessages history (userTextOf stt))[i + 1]? =
      some ⟨toChatRole history[i].role, history[i].content⟩ ∧
    userTextOf none = "" ∧
    replyOf none = "¿Puedes repetir, por favor?" ∧
    (handler .post none history deps).chatMessages =
      some (buildMessages history (userTextOf deps.sttText)) := by
  refine ⟨by simp [buildMessages], rfl, ?_, ?_, rfl, rfl, rfl⟩
  · rw [buildMessages, ← List.cons_append, List.getLast?_concat]
  · rw [buildMessages, List.getElem?_cons_succ,
      List.getElem?_append_left (by simpa using hi), List.getElem?_map,
      List.getElem?_eq_getElem hi]
    rfl

/-- C9 witness: the theorem instantiated at a concrete history, an absent
transcription text, and index 0. -/
theorem claim_C9_chat_request_witness :
    0 < sampleHistory.length ∧
    ((buildMessages sampleHistory (userTextOf none)).length =
        sampleHistory.length + 2 ∧
     (buildMessages sampleHistory (userTextOf none)).head? =
        some ⟨.system, SYSTEM_PROMPT⟩ ∧
     (buildMessages sampleHistory (userTextOf none)).getLast? =
        some ⟨.user, userTextOf none⟩ ∧
     (buildMessages sampleHistory (userTextOf none))[0 + 1]? =
        some ⟨toChatRole sampleHistory[0].role, sampleHistory[0].content⟩ ∧
     userTextOf none = "" ∧
     replyOf none = "¿Puedes repetir, por favor?" ∧
     (handler .post none sampleHistory sampleDeps).chatMessages =
        some (buildMessages sampleHistory (userTextOf sampleDeps.sttText))) :=
  ⟨by decide, claim_C9_chat_request sampleHistory none sampleDeps 0 (by decide)⟩

/-- C10: a GET request to the turn endpoint is answered 200 with body
`{ok: true, route: "turn"}`, and a request whose method is neither GET nor
POST is answered 405 with an `Allow: POST` header — in both cases with no
external collaborator invoked and without the request body being parsed. -/
theorem claim_C10_method_guard (formErr : Option String) (history : List Msg)
    (deps : BackendDeps) (name : String) :
    (handler .get formErr history deps).status = 200 ∧
    (handler .get formErr history deps).body =
      .jobj [("ok", .jbool true), ("route", .jstr "turn")] ∧
    (handler .get formErr history deps).allow = none ∧
    (handler .get formErr history deps).externalCalls = 0 ∧
    (handler .get formErr history deps).parsedBody = false ∧
    (handler (.other name) formErr history deps).status = 405 ∧
    (handler (.other name) formErr history deps).allow = some "POST" ∧
    (handler (.other name) formErr history deps).body =
      .jobj [("error", .jstr "Method Not Allowed")] ∧
    (handler (.other name) formErr history deps).externalCalls = 0 ∧
    (handler (.other name) formErr history deps).parsedBody = false :=
  ⟨rfl, rfl, rfl, rfl, rfl, rfl, rfl, rfl, rfl, rfl⟩

end SpanishAssistant
